import Mathlib

/-
Verification of the process module of nvitop (src/nvitop/core/process.py).

The module is embedded shallowly:

* Python strings are Lean `String`s; the handful of `str` methods the module
  uses (`in` on a single character, `str.replace` with a one-character
  pattern, `str.strip`/`str.split` on the NUL character, `str.join`) are
  re-implemented structurally over `String.data` so that every definition
  evaluates by kernel reduction.
* Python floats (CPU / memory percentages, timestamps) are modelled as `ℚ`.
  `'{:.1f}'.format` is modelled as rounding to the nearest tenth with ties
  to even, which agrees with CPython both on exact decimal inputs and on the
  IEEE-754 doubles appearing in the claims (none of which is a tie).
* The process-wide mutable tables (`HostProcess.INSTANCES`,
  `GpuProcess.INSTANCES`, `GpuProcess.HOST_SNAPSHOTS`) are explicit
  association lists inside a state record `PState`; Python object identity
  is modelled by a fresh-allocation counter `nextId`, so two handles are
  "the identical object" exactly when they carry the same id.
* `psutil` and the device layer are external collaborators: a call that can
  raise `psutil.Error` is passed in as an `Except PsutilError` value, and the
  out-of-scope helper `timedelta2human` is a function parameter.
* Not modelled: the wall-clock `ttl_cache(ttl=1.0)` decorators (pure
  time-bounded memoization, irrelevant to the claims below) and the
  `pid=None` convenience default of `HostProcess` (which merely substitutes
  `os.getpid()`); the constructors always receive an explicit pid.
-/

namespace Nvitop

/-! ## Python string primitives -/

/-- The NUL character, Python `'\0'`. -/
def nulChar : Char := Char.ofNat 0

/-- The double-quote character `"`. -/
def dquoteChar : Char := Char.ofNat 34

/-- The single-quote character. -/
def squoteChar : Char := Char.ofNat 39

/-- Python `c in s` for a single character `c`. -/
def pyContains (s : String) (c : Char) : Bool :=
  s.data.any (fun x => x == c)

/-- Replace every occurrence of the character `c` by the string `r`
(Python `s.replace(old, new)` restricted to a one-character `old`, the only
form the module uses). -/
def pyReplace (s : String) (c : Char) (r : String) : String :=
  String.mk (s.data.flatMap (fun x => if x = c then r.data else [x]))

/-- Python `s.strip('\0')`: drop NUL characters from both ends. -/
def pyStrip0 (s : String) : String :=
  String.mk (((s.data.dropWhile (fun c => c == nulChar)).reverse.dropWhile
    (fun c => c == nulChar)).reverse)

/-- Python `s.split('\0')`: split on every NUL; the empty string yields
one empty field, like Python's `str.split` with an explicit separator. -/
def pySplit0 (s : String) : List String :=
  (s.data.foldr
    (fun c acc =>
      match acc with
      | [] => [[c]]
      | cur :: rest => if c = nulChar then [] :: cur :: rest else (c :: cur) :: rest)
    [[]]).map String.mk

/-- Python `sep.join(xs)` for a one-character separator. -/
def joinChar (sep : Char) : List String → String
  | [] => ""
  | [x] => x
  | x :: xs => x ++ String.mk [sep] ++ joinChar sep xs

/-! ## `add_quotes` (POSIX branch, process.py lines 20-31) -/

/-- The escape step of the last branch of `add_quotes`:
`s.replace('\\', '\\\\').replace('"', '\\"').replace('$', '\\$')`,
three sequential single-character replacements. -/
def posixEscape (s : String) : String :=
  pyReplace (pyReplace (pyReplace s '\\' "\\\\") dquoteChar "\\\"") '$' "\\$"

/-- POSIX `add_quotes` (process.py lines 20-31).  The source's nested
conditionals are flattened: the first guarded block returns `s` when none of
`$`, backslash, space occurs, and returns `s` wrapped in double quotes when
`$` and backslash are absent but a space is present and no double quote
occurs; control otherwise falls through to the single-quote / escape
branches. -/
def add_quotes (s : String) : String :=
  if s = "" then "\"\""
  else if !(pyContains s '$') && !(pyContains s '\\') && !(pyContains s ' ') then s
  else if !(pyContains s '$') && !(pyContains s '\\') && !(pyContains s dquoteChar) then
    "\"" ++ s ++ "\""
  else if !(pyContains s squoteChar) then
    String.mk [squoteChar] ++ s ++ String.mk [squoteChar]
  else "\"" ++ posixEscape s ++ "\""

/-! ## `HostProcess.command` (process.py lines 109-115) -/

/-- The command-line normalization shared by `HostProcess.command` and
`GpuProcess.as_snapshot`: when more than one token is present, join on NUL,
strip NULs from both ends, and split on NUL again (collapsing a command line
the OS exposed as one NUL-separated blob, and dropping empty leading or
trailing tokens). -/
def normalizeCmdline (cmdline : List String) : List String :=
  if cmdline.length > 1 then pySplit0 (pyStrip0 (joinChar nulChar cmdline)) else cmdline

/-- `HostProcess.command` as a function of the `cmdline()` result: after
normalization a single token is returned verbatim, otherwise the quoted
tokens are joined with spaces. -/
def HostProcess.command (cmdline : List String) : String :=
  match normalizeCmdline cmdline with
  | [x] => x
  | xs => joinChar ' ' (xs.map add_quotes)

/-! ## Numeric display helpers

CPU / memory percentages and timestamps are Python floats; they are modelled
as `ℚ`.  CPython's `'{:.1f}'.format` renders the double rounded to the
nearest tenth, ties to even; `int()` truncates toward zero. -/

/-- Round to the nearest integer, ties to even. -/
def roundHalfEven (q : ℚ) : ℤ :=
  let f := ⌊q⌋
  if q - f < 1/2 then f
  else if q - f > 1/2 then f + 1
  else if f % 2 = 0 then f else f + 1

/-- Python `'{:.1f}'.format(q)` for a non-negative `q` (the only inputs the
module formats): the nearest tenth, ties to even, printed with one digit
after the point. -/
def format1f (q : ℚ) : String :=
  let n := roundHalfEven (10 * q)
  toString (n / 10) ++ "." ++ toString (n % 10)

/-- Python `int()`: truncation toward zero. -/
def pyInt (q : ℚ) : ℤ := if 0 ≤ q then ⌊q⌋ else ⌈q⌉

/-- The three-band CPU-percent display string derived in
`GpuProcess.as_snapshot` (process.py lines 287-292). -/
def cpu_percent_string (cpu : ℚ) : String :=
  if cpu < 1000 then format1f cpu ++ "%"
  else if cpu < 10000 then toString (pyInt cpu) ++ "%"
  else "9999+%"

/-! ## `GpuProcess` type flags (process.py lines 213-221) -/

/-- The `type` property setter of `GpuProcess`: it rebuilds `self._type`
from scratch out of the assigned `value`, ignoring the previous field
value — `'C'` in the value contributes `"C"`, `'G'` contributes `"G"`, and
an `'X'` in the value or the combination `"CG"` collapses to `"X"`. -/
def GpuProcess.set_type (value : String) : String :=
  let t := ""
  let t := if pyContains value 'C' then t ++ "C" else t
  let t := if pyContains value 'G' then t ++ "G" else t
  if pyContains value 'X' || t == "CG" then "X" else t

/-- A sequence of assignments `handle.type = v` applied in order to a type
field holding `initial`. -/
def GpuProcess.apply_types (initial : String) (values : List String) : String :=
  values.foldl (fun _t v => GpuProcess.set_type v) initial

/-! ## Host-side snapshot data (process.py lines 268-309)

`HostRaw` is what the OS-process collaborator hands back inside the
`with self.host.oneshot():` block; `HostSnap` is the derived host-side
snapshot stored in `GpuProcess.HOST_SNAPSHOTS`. -/

structure HostRaw where
  is_running : Bool
  status : String
  username : String
  name : String
  cmdline : List String
  cpu_percent : ℚ
  memory_percent : ℚ
  running_time : ℚ
deriving DecidableEq

structure HostSnap where
  is_running : Bool
  status : String
  username : String
  name : String
  cmdline : List String
  command : String
  cpu_percent : ℚ
  cpu_percent_string : String
  memory_percent : ℚ
  memory_percent_string : String
  running_time : ℚ
  running_time_human : String
deriving DecidableEq

/-- The derivation of a host snapshot from one gather (process.py lines
274-305): the banded CPU string and one-decimal memory string; when the
process is not running, `running_time_human` is forced to `"N/A"` and the
command line to the single placeholder; the command line is then normalized
exactly as in `HostProcess.command`.  `td2h` is the out-of-scope helper
`timedelta2human`. -/
def deriveHostSnap (td2h : ℚ → String) (raw : HostRaw) : HostSnap :=
  let cpuString := cpu_percent_string raw.cpu_percent
  let memString := format1f raw.memory_percent ++ "%"
  let rth := if raw.is_running then td2h raw.running_time else "N/A"
  let cmdline0 := if raw.is_running then raw.cmdline else ["No Such Process"]
  let cmdline1 := normalizeCmdline cmdline0
  let command :=
    match cmdline1 with
    | [x] => x
    | xs => joinChar ' ' (xs.map add_quotes)
  { is_running := raw.is_running
    status := raw.status
    username := raw.username
    name := raw.name
    cmdline := cmdline1
    command := command
    cpu_percent := raw.cpu_percent
    cpu_percent_string := cpuString
    memory_percent := raw.memory_percent
    memory_percent_string := memString
    running_time := raw.running_time
    running_time_human := rth }

/-! ## The process-wide mutable state

Three module-level tables and one mode flag.  Python object identity is
modelled by the allocation counter `nextId`: a freshly constructed handle
receives the current counter value as its id, so ids returned by the
constructors coincide exactly when the same live object is returned.
`gatherCount` is the spec's observable call counter on the OS collaborator:
it increments once per `with self.host.oneshot():` host-data gather. -/

/-- The distinguished `psutil.Error` family (`host.PsutilError`); the only
failure the garbage-collection wrapper catches. -/
inductive PsutilError where
  | noSuchProcess
deriving DecidableEq

structure PState where
  /-- `HostProcess.INSTANCES` : pid to object id. -/
  hostInstances : List (Nat × Nat)
  /-- `GpuProcess.INSTANCES` : (pid, device.index) to object id. -/
  gpuInstances : List ((Nat × Nat) × Nat)
  /-- `GpuProcess.HOST_SNAPSHOTS` : pid to host snapshot. -/
  hostSnapshots : List (Nat × HostSnap)
  /-- `GpuProcess.CLI_MODE`. -/
  cliMode : Bool
  /-- Fresh-allocation counter modelling object identity. -/
  nextId : Nat
  /-- Instrumentation: number of host-data gathers performed so far. -/
  gatherCount : Nat
deriving DecidableEq

/-! ### Python dict operations on association lists -/

def tblLookup {α β : Type} [DecidableEq α] : List (α × β) → α → Option β
  | [], _ => none
  | (k, v) :: t, k' => if k = k' then some v else tblLookup t k'

/-- `del d[k]` with the `KeyError` swallowed: total, a no-op on an absent
key. -/
def tblErase {α β : Type} [DecidableEq α] : List (α × β) → α → List (α × β)
  | [], _ => []
  | (k', v) :: t, k => if k' = k then tblErase t k else (k', v) :: tblErase t k

/-- `d[k] = v`. -/
def tblInsert {α β : Type} [DecidableEq α] (t : List (α × β)) (k : α)
    (v : β) : List (α × β) :=
  (k, v) :: tblErase t k

/-! ### Constructors (process.py lines 74-87 and 128-143) -/

/-- `HostProcess.__new__`: return the instance cached for `pid` when there
is one, otherwise allocate a fresh object, run `__init__` (which touches no
table) and register it under `pid`. -/
def HostProcess.new (s : PState) (pid : Nat) : Nat × PState :=
  match tblLookup s.hostInstances pid with
  | some obj => (obj, s)
  | none =>
      let obj := s.nextId
      ( obj,
        { s with
          nextId := s.nextId + 1,
          hostInstances := tblInsert s.hostInstances pid obj } )

/-- `GpuProcess(pid, device)`: `__new__` returns the instance cached for
`(pid, device)` when there is one; otherwise it allocates a fresh object,
runs `__init__` (whose `self.host = HostProcess(pid)` resolves or creates
the host handle), registers the object under `(pid, device)` and deletes any
`HOST_SNAPSHOTS` entry for `pid`.  In both cases Python then runs `__init__`
once more on the returned object, which re-resolves `HostProcess(pid)`. -/
def GpuProcess.new (s : PState) (pid devIdx : Nat) : Nat × PState :=
  match tblLookup s.gpuInstances (pid, devIdx) with
  | some obj => (obj, (HostProcess.new s pid).snd)
  | none =>
      let obj := s.nextId
      let s1 := { s with nextId := s.nextId + 1 }
      let s2 := (HostProcess.new s1 pid).snd
      ( obj,
        { s2 with
          gpuInstances := tblInsert s2.gpuInstances (pid, devIdx) obj,
          hostSnapshots := tblErase s2.hostSnapshots pid } )

/-! ### The garbage-collection wrapper (process.py lines 47-67) -/

/-- The `except host.PsutilError:` block of the wrapper: delete the handle's
identity from `GpuProcess.INSTANCES` and from `HostProcess.INSTANCES`, each
`del` guarded by a swallowed `KeyError`. -/
def gcEvict (s : PState) (pid devIdx : Nat) : PState :=
  { s with
    gpuInstances := tblErase s.gpuInstances (pid, devIdx),
    hostInstances := tblErase s.hostInstances pid }

/-- `auto_garbage_clean(default)` applied to a handle operation: `body` is
the outcome of the wrapped call on the `(pid, devIdx)` handle.  On success
the value passes through; on a `PsutilError` the handle's identity is
deleted from `GpuProcess.INSTANCES` and `HostProcess.INSTANCES` (each
`KeyError` swallowed, so an absent identity is a no-op) and `default` is
returned. -/
def auto_garbage_clean {α : Type} (default : α) (pid devIdx : Nat)
    (body : Except PsutilError α) (s : PState) : α × PState :=
  match body with
  | Except.ok v => (v, s)
  | Except.error _ => (default, gcEvict s pid devIdx)

/-! ### The wrapped `GpuProcess` operations (process.py lines 223-258)

Each operation is `auto_garbage_clean` at its declared default; the body's
outcome (the underlying host-collaborator call) is passed in as an
`Except` value. -/

def GpuProcess.running_time (s : PState) (pid devIdx : Nat)
    (body : Except PsutilError ℚ) : ℚ × PState :=
  auto_garbage_clean 0 pid devIdx body s

/-- The default of `create_time` is `time.time()` **evaluated once, when the
class body is executed at module import**: the decorator line
`@auto_garbage_clean(default=time.time())` calls `time.time()` at decoration
time.  `importClock` is the clock reading at that moment and `_callClock`
the clock reading at call time; the definition never consults the latter. -/
def GpuProcess.create_time (importClock : ℚ) (_callClock : ℚ) (s : PState)
    (pid devIdx : Nat) (body : Except PsutilError ℚ) : ℚ × PState :=
  auto_garbage_clean importClock pid devIdx body s

def GpuProcess.username (s : PState) (pid devIdx : Nat)
    (body : Except PsutilError String) : String × PState :=
  auto_garbage_clean "N/A" pid devIdx body s

def GpuProcess.name (s : PState) (pid devIdx : Nat)
    (body : Except PsutilError String) : String × PState :=
  auto_garbage_clean "N/A" pid devIdx body s

def GpuProcess.cpu_percent (s : PState) (pid devIdx : Nat)
    (body : Except PsutilError ℚ) : ℚ × PState :=
  auto_garbage_clean 0 pid devIdx body s

def GpuProcess.memory_percent (s : PState) (pid devIdx : Nat)
    (body : Except PsutilError ℚ) : ℚ × PState :=
  auto_garbage_clean 0 pid devIdx body s

/-- `GpuProcess.cmdline` (process.py lines 253-258): the body replaces an
empty command line by the `('Zombie Process',)` placeholder; the declared
default is `('No Such Process',)`. -/
def GpuProcess.cmdline (s : PState) (pid devIdx : Nat)
    (body : Except PsutilError (List String)) : List String × PState :=
  auto_garbage_clean ["No Such Process"] pid devIdx
    (body.map (fun c => if c.length = 0 then ["Zombie Process"] else c)) s

/-! ### `as_snapshot` and the per-tick host snapshot cache
(process.py lines 263-309) -/

/-- `GpuProcess.clear_host_snapshots`. -/
def GpuProcess.clear_host_snapshots (s : PState) : PState :=
  { s with hostSnapshots := [] }

/-- The cached section of `GpuProcess.as_snapshot` (lines 270-308): under
the snapshot lock, reuse the host snapshot cached for `pid` when present;
otherwise gather the host data (counted by `gatherCount`), derive the host
snapshot and, only in `CLI_MODE`, store it under `pid`. -/
def GpuProcess.as_snapshot_host (td2h : ℚ → String) (s : PState) (pid : Nat)
    (raw : HostRaw) : HostSnap × PState :=
  match tblLookup s.hostSnapshots pid with
  | some hs => (hs, s)
  | none =>
      let hs := deriveHostSnap td2h raw
      ( hs,
        { s with
          gatherCount := s.gatherCount + 1,
          hostSnapshots :=
            if s.cliMode then tblInsert s.hostSnapshots pid hs
            else s.hostSnapshots } )

/-- `GpuProcess.as_snapshot`, garbage-collection wrapper included: `raw` is
the outcome of the host-collaborator queries; the declared default is
`None`.  The composition of the returned device snapshot (lines 310-329)
copies fields and is omitted; the host-side snapshot is returned. -/
def GpuProcess.as_snapshot (td2h : ℚ → String) (s : PState)
    (pid devIdx : Nat) (raw : Except PsutilError HostRaw) :
    Option HostSnap × PState :=
  match raw with
  | Except.error e => auto_garbage_clean none pid devIdx (Except.error e) s
  | Except.ok r =>
      let res := GpuProcess.as_snapshot_host td2h s pid r
      (some res.fst, res.snd)

/-! ## Concrete data for witnesses and counterexamples -/

/-- A concrete stand-in for the external `timedelta2human` helper. -/
def td2hNA : ℚ → String := fun _ => "N/A"

/-- A concrete host-collaborator gather result. -/
def sampleRaw : HostRaw :=
  { is_running := true
    status := "running"
    username := "user"
    name := "python"
    cmdline := ["python"]
    cpu_percent := 0
    memory_percent := 0
    running_time := 0 }

/-- Two live device-process handles for pid 1 on devices 0 and 1, an empty
per-tick snapshot cache, and `CLI_MODE` at its default `False`. -/
def twoHandleState : PState :=
  { hostInstances := [(1, 0)]
    gpuInstances := [((1, 0), 1), ((1, 1), 2)]
    hostSnapshots := []
    cliMode := false
    nextId := 3
    gatherCount := 0 }

/-- The same configuration with `CLI_MODE` enabled. -/
def twoHandleStateCli : PState := { twoHandleState with cliMode := true }

/-! ## Association-table lemmas -/

theorem tblLookup_erase_self {α β : Type} [DecidableEq α]
    (t : List (α × β)) (k : α) : tblLookup (tblErase t k) k = none := by
  induction t with
  | nil => rfl
  | cons p t ih =>
    obtain ⟨a, b⟩ := p
    by_cases h : a = k
    · simp only [tblErase, if_pos h]
      exact ih
    · simp only [tblErase, if_neg h, tblLookup, ih, if_neg h]

theorem tblLookup_erase_ne {α β : Type} [DecidableEq α]
    (t : List (α × β)) (k q : α) (h : q ≠ k) :
    tblLookup (tblErase t k) q = tblLookup t q := by
  induction t with
  | nil => rfl
  | cons p t ih =>
    obtain ⟨a, b⟩ := p
    by_cases hak : a = k
    · subst hak
      have haq : a ≠ q := fun hc => h (hc ▸ rfl)
      simp [tblErase, tblLookup, haq, ih]
    · simp only [tblErase, if_neg hak, tblLookup, ih]

theorem tblLookup_insert_self {α β : Type} [DecidableEq α]
    (t : List (α × β)) (k : α) (v : β) :
    tblLookup (tblInsert t k v) k = some v := by
  simp [tblInsert, tblLookup]

theorem tblLookup_insert_ne {α β : Type} [DecidableEq α]
    (t : List (α × β)) (k q : α) (v : β) (h : q ≠ k) :
    tblLookup (tblInsert t k v) q = tblLookup t q := by
  have hkq : k ≠ q := fun hc => h hc.symm
  simp only [tblInsert, tblLookup, if_neg hkq, tblLookup_erase_ne t k q h]

theorem tblErase_absent {α β : Type} [DecidableEq α]
    (t : List (α × β)) (k : α) (h : tblLookup t k = none) :
    tblErase t k = t := by
  induction t with
  | nil => rfl
  | cons p t ih =>
    obtain ⟨a, b⟩ := p
    by_cases hak : a = k
    · simp only [tblLookup, if_pos hak] at h
      cases h
    · simp only [tblLookup, if_neg hak] at h
      simp only [tblErase, if_neg hak, ih h]

theorem tblErase_keys_sublist {α β : Type} [DecidableEq α]
    (t : List (α × β)) (k : α) :
    ((tblErase t k).map Prod.fst).Sublist (t.map Prod.fst) := by
  induction t with
  | nil => exact List.Sublist.refl _
  | cons p t ih =>
    obtain ⟨a, b⟩ := p
    by_cases hak : a = k
    · simp only [tblErase, if_pos hak, List.map_cons]
      exact ih.cons a
    · simp only [tblErase, if_neg hak, List.map_cons]
      exact ih.cons₂ a

theorem not_mem_erase_keys {α β : Type} [DecidableEq α]
    (t : List (α × β)) (k : α) :
    k ∉ (tblErase t k).map Prod.fst := by
  induction t with
  | nil => simp [tblErase]
  | cons p t ih =>
    obtain ⟨a, b⟩ := p
    by_cases hak : a = k
    · simpa only [tblErase, if_pos hak] using ih
    · simp only [tblErase, if_neg hak, List.map_cons, List.mem_cons]
      rintro (h | h)
      · exact hak h.symm
      · exact ih h

theorem tblInsert_keys_nodup {α β : Type} [DecidableEq α]
    (t : List (α × β)) (k : α) (v : β)
    (h : (t.map Prod.fst).Nodup) :
    ((tblInsert t k v).map Prod.fst).Nodup := by
  simp only [tblInsert, List.map_cons, List.nodup_cons]
  exact ⟨not_mem_erase_keys t k, (tblErase_keys_sublist t k).nodup h⟩

theorem tblErase_keys_nodup {α β : Type} [DecidableEq α]
    (t : List (α × β)) (k : α)
    (h : (t.map Prod.fst).Nodup) :
    ((tblErase t k).map Prod.fst).Nodup :=
  (tblErase_keys_sublist t k).nodup h

/-! ## Frame lemmas for the constructors -/

theorem HostProcess.new_frame (s : PState) (pid : Nat) :
    (HostProcess.new s pid).snd.gpuInstances = s.gpuInstances ∧
    (HostProcess.new s pid).snd.hostSnapshots = s.hostSnapshots ∧
    (HostProcess.new s pid).snd.cliMode = s.cliMode ∧
    (HostProcess.new s pid).snd.gatherCount = s.gatherCount := by
  cases h : tblLookup s.hostInstances pid <;>
    simp [HostProcess.new, h]

theorem HostProcess.new_hostInstances_ne (s : PState) (pid q : Nat)
    (h : q ≠ pid) :
    tblLookup (HostProcess.new s pid).snd.hostInstances q
      = tblLookup s.hostInstances q := by
  cases hl : tblLookup s.hostInstances pid with
  | some obj => simp [HostProcess.new, hl]
  | none =>
    simp only [HostProcess.new, hl]
    exact tblLookup_insert_ne s.hostInstances pid q s.nextId h

theorem HostProcess.new_keys_nodup (s : PState) (pid : Nat)
    (h : (s.hostInstances.map Prod.fst).Nodup) :
    ((HostProcess.new s pid).snd.hostInstances.map Prod.fst).Nodup := by
  cases hl : tblLookup s.hostInstances pid with
  | some obj => simpa [HostProcess.new, hl] using h
  | none =>
    simp only [HostProcess.new, hl]
    exact tblInsert_keys_nodup s.hostInstances pid s.nextId h

/-! ## The claims -/

/-- C1: for every pid, constructing `HostProcess(pid)` while a handle for
that pid is live returns the identical object with no state change, and a
second construction right after a first returns the identical object;
likewise `GpuProcess(pid, device)` per `(pid, device.index)` key; and both
registries keep at most one live handle per identity (no-duplicate-keys is
preserved by both constructors). -/
theorem C1_identity_uniqueness :
    (∀ (s : PState) (pid obj : Nat),
        tblLookup s.hostInstances pid = some obj →
        HostProcess.new s pid = (obj, s)) ∧
    (∀ (s : PState) (pid : Nat),
        (HostProcess.new (HostProcess.new s pid).snd pid).fst
          = (HostProcess.new s pid).fst) ∧
    (∀ (s : PState) (pid devIdx obj : Nat),
        tblLookup s.gpuInstances (pid, devIdx) = some obj →
        (GpuProcess.new s pid devIdx).fst = obj) ∧
    (∀ (s : PState) (pid devIdx : Nat),
        (GpuProcess.new (GpuProcess.new s pid devIdx).snd pid devIdx).fst
          = (GpuProcess.new s pid devIdx).fst) ∧
    (∀ (s : PState) (pid : Nat),
        (s.hostInstances.map Prod.fst).Nodup →
        ((HostProcess.new s pid).snd.hostInstances.map Prod.fst).Nodup) ∧
    (∀ (s : PState) (pid devIdx : Nat),
        (s.hostInstances.map Prod.fst).Nodup →
        (s.gpuInstances.map Prod.fst).Nodup →
        ((GpuProcess.new s pid devIdx).snd.hostInstances.map Prod.fst).Nodup ∧
        ((GpuProcess.new s pid devIdx).snd.gpuInstances.map Prod.fst).Nodup) := by
  refine ⟨?_, ?_, ?_, ?_, ?_, ?_⟩
  · intro s pid obj h
    simp [HostProcess.new, h]
  · intro s pid
    cases hl : tblLookup s.hostInstances pid with
    | some obj => simp [HostProcess.new, hl]
    | none => simp [HostProcess.new, hl, tblLookup_insert_self]
  · intro s pid devIdx obj h
    simp [GpuProcess.new, h]
  · intro s pid devIdx
    cases hg : tblLookup s.gpuInstances (pid, devIdx) with
    | some obj =>
      have hframe := (HostProcess.new_frame s pid).1
      simp [GpuProcess.new, hg, hframe]
    | none =>
      simp [GpuProcess.new, hg, tblLookup_insert_self]
  · intro s pid h
    exact HostProcess.new_keys_nodup s pid h
  · intro s pid devIdx hh hg
    cases hgl : tblLookup s.gpuInstances (pid, devIdx) with
    | some obj =>
      constructor
      · simp only [GpuProcess.new, hgl]
        exact HostProcess.new_keys_nodup s pid hh
      · simp only [GpuProcess.new, hgl, (HostProcess.new_frame s pid).1]
        exact hg
    | none =>
      have hh1 : ((PState.mk s.hostInstances s.gpuInstances s.hostSnapshots
          s.cliMode (s.nextId + 1) s.gatherCount).hostInstances.map
          Prod.fst).Nodup := hh
      constructor
      · simp only [GpuProcess.new, hgl]
        exact HostProcess.new_keys_nodup _ pid hh
      · simp only [GpuProcess.new, hgl]
        refine tblInsert_keys_nodup _ _ _ ?_
        simpa [(HostProcess.new_frame _ pid).1] using hg

/-- C2: every operation wrapped by `auto_garbage_clean` (`running_time`,
`create_time`, `username`, `name`, `cpu_percent`, `memory_percent`,
`cmdline`, `as_snapshot`), when its underlying query raises the
no-such-process failure, removes the handle's identity from the
device-process table and from the host table (a no-op when the identity is
absent) and returns the operation's declared default instead of propagating
the failure. -/
theorem C2_gc_policy :
    ∀ (s : PState) (pid devIdx : Nat) (e : PsutilError) (t0 tc : ℚ)
      (td2h : ℚ → String),
      (GpuProcess.running_time s pid devIdx (Except.error e)
          = (0, gcEvict s pid devIdx)) ∧
      (GpuProcess.create_time t0 tc s pid devIdx (Except.error e)
          = (t0, gcEvict s pid devIdx)) ∧
      (GpuProcess.username s pid devIdx (Except.error e)
          = ("N/A", gcEvict s pid devIdx)) ∧
      (GpuProcess.name s pid devIdx (Except.error e)
          = ("N/A", gcEvict s pid devIdx)) ∧
      (GpuProcess.cpu_percent s pid devIdx (Except.error e)
          = (0, gcEvict s pid devIdx)) ∧
      (GpuProcess.memory_percent s pid devIdx (Except.error e)
          = (0, gcEvict s pid devIdx)) ∧
      (GpuProcess.cmdline s pid devIdx (Except.error e)
          = (["No Such Process"], gcEvict s pid devIdx)) ∧
      (GpuProcess.as_snapshot td2h s pid devIdx (Except.error e)
          = (none, gcEvict s pid devIdx)) ∧
      (tblLookup (gcEvict s pid devIdx).gpuInstances (pid, devIdx) = none) ∧
      (tblLookup (gcEvict s pid devIdx).hostInstances pid = none) ∧
      (tblLookup s.gpuInstances (pid, devIdx) = none →
        (gcEvict s pid devIdx).gpuInstances = s.gpuInstances) ∧
      (tblLookup s.hostInstances pid = none →
        (gcEvict s pid devIdx).hostInstances = s.hostInstances) := by
  intro s pid devIdx e t0 tc td2h
  refine ⟨rfl, rfl, rfl, rfl, rfl, rfl, rfl, rfl, ?_, ?_, ?_, ?_⟩
  · exact tblLookup_erase_self s.gpuInstances (pid, devIdx)
  · exact tblLookup_erase_self s.hostInstances pid
  · intro h
    exact tblErase_absent s.gpuInstances (pid, devIdx) h
  · intro h
    exact tblErase_absent s.hostInstances pid h

/-- C8: constructing a `GpuProcess` that is new (its `(pid, device.index)`
key is not in the device-process table) deletes any host-snapshot cache
entry for that pid, and leaves the cache entries of other pids and the
other entries of both identity tables unchanged. -/
theorem C8_new_handle_invalidates_cache (s : PState) (pid devIdx : Nat)
    (hnew : tblLookup s.gpuInstances (pid, devIdx) = none) :
    (tblLookup (GpuProcess.new s pid devIdx).snd.hostSnapshots pid = none) ∧
    (∀ q, q ≠ pid →
      tblLookup (GpuProcess.new s pid devIdx).snd.hostSnapshots q
        = tblLookup s.hostSnapshots q) ∧
    (∀ q, q ≠ pid →
      tblLookup (GpuProcess.new s pid devIdx).snd.hostInstances q
        = tblLookup s.hostInstances q) ∧
    (∀ k, k ≠ (pid, devIdx) →
      tblLookup (GpuProcess.new s pid devIdx).snd.gpuInstances k
        = tblLookup s.gpuInstances k) := by
  have hsnap := (HostProcess.new_frame
    (PState.mk s.hostInstances s.gpuInstances s.hostSnapshots s.cliMode
      (s.nextId + 1) s.gatherCount) pid).2.1
  have hgpu := (HostProcess.new_frame
    (PState.mk s.hostInstances s.gpuInstances s.hostSnapshots s.cliMode
      (s.nextId + 1) s.gatherCount) pid).1
  refine ⟨?_, ?_, ?_, ?_⟩
  · simp only [GpuProcess.new, hnew]
    rw [hsnap]
    exact tblLookup_erase_self s.hostSnapshots pid
  · intro q hq
    simp only [GpuProcess.new, hnew]
    rw [hsnap]
    exact tblLookup_erase_ne s.hostSnapshots pid q hq
  · intro q hq
    simp only [GpuProcess.new, hnew]
    exact HostProcess.new_hostInstances_ne _ pid q hq
  · intro k hk
    simp only [GpuProcess.new, hnew]
    rw [hgpu]
    exact tblLookup_insert_ne s.gpuInstances (pid, devIdx) k _ hk

/-- C8 witness: the theorem at a concrete state in which the `(1, 1)` key
is new, with a cached snapshot for pid 1 and unrelated entries for pid 2. -/
theorem C8_witness :
    (tblLookup (GpuProcess.new
        (PState.mk [(1, 0), (2, 3)] [((1, 0), 1), ((2, 0), 4)]
          [(1, HostSnap.mk true "" "" "" [] "" 0 "" 0 "" 0 ""),
           (2, HostSnap.mk true "" "" "" [] "" 0 "" 0 "" 0 "")]
          false 5 0) 1 1).snd.hostSnapshots 1 = none) ∧
    (tblLookup (GpuProcess.new
        (PState.mk [(1, 0), (2, 3)] [((1, 0), 1), ((2, 0), 4)]
          [(1, HostSnap.mk true "" "" "" [] "" 0 "" 0 "" 0 ""),
           (2, HostSnap.mk true "" "" "" [] "" 0 "" 0 "" 0 "")]
          false 5 0) 1 1).snd.hostSnapshots 2
      = tblLookup
          [(1, HostSnap.mk true "" "" "" [] "" 0 "" 0 "" 0 ""),
           (2, HostSnap.mk true "" "" "" [] "" 0 "" 0 "" 0 "")] 2) ∧
    (tblLookup (GpuProcess.new
        (PState.mk [(1, 0), (2, 3)] [((1, 0), 1), ((2, 0), 4)]
          [(1, HostSnap.mk true "" "" "" [] "" 0 "" 0 "" 0 ""),
           (2, HostSnap.mk true "" "" "" [] "" 0 "" 0 "" 0 "")]
          false 5 0) 1 1).snd.hostInstances 2 = tblLookup [(1, 0), (2, 3)] 2) ∧
    (tblLookup (GpuProcess.new
        (PState.mk [(1, 0), (2, 3)] [((1, 0), 1), ((2, 0), 4)]
          [(1, HostSnap.mk true "" "" "" [] "" 0 "" 0 "" 0 ""),
           (2, HostSnap.mk true "" "" "" [] "" 0 "" 0 "" 0 "")]
          false 5 0) 1 1).snd.gpuInstances ((2 : Nat), (0 : Nat))
      = tblLookup [((1, 0), 1), ((2, 0), 4)] ((2 : Nat), (0 : Nat))) := by
  obtain ⟨h1, h2, h3, h4⟩ := C8_new_handle_invalidates_cache
    (PState.mk [(1, 0), (2, 3)] [((1, 0), 1), ((2, 0), 4)]
      [(1, HostSnap.mk true "" "" "" [] "" 0 "" 0 "" 0 ""),
       (2, HostSnap.mk true "" "" "" [] "" 0 "" 0 "" 0 "")]
      false 5 0) 1 1 rfl
  exact ⟨h1, h2 2 (by decide), h3 2 (by decide), h4 (2, 0) (by decide)⟩

/-- C9: `GpuProcess.cmdline` never returns an empty sequence: an empty host
command line becomes the `Zombie Process` placeholder, and the
no-such-process failure yields the declared default placeholder. -/
theorem C9_cmdline_never_empty :
    ∀ (s : PState) (pid devIdx : Nat)
      (body : Except PsutilError (List String)) (e : PsutilError),
      ((GpuProcess.cmdline s pid devIdx body).fst.isEmpty = false) ∧
      (GpuProcess.cmdline s pid devIdx (Except.error e)
          = (["No Such Process"], gcEvict s pid devIdx)) ∧
      (GpuProcess.cmdline s pid devIdx (Except.ok [])
          = (["Zombie Process"], s)) := by
  intro s pid devIdx body e
  refine ⟨?_, rfl, rfl⟩
  cases body with
  | error e' => rfl
  | ok c =>
    cases c with
    | nil => rfl
    | cons x xs => rfl

/-- C10: the declared default of `GpuProcess.create_time` is the single
timestamp `time.time()` captured when the class body was executed at module
import; every later call on a vanished process returns that same constant,
and the result never depends on the clock at call time. -/
theorem C10_create_time_constant_default :
    ∀ (importClock c1 c2 : ℚ) (s : PState) (pid devIdx : Nat)
      (e : PsutilError) (body : Except PsutilError ℚ),
      ((GpuProcess.create_time importClock c1 s pid devIdx
          (Except.error e)).fst = importClock) ∧
      (GpuProcess.create_time importClock c1 s pid devIdx body
          = GpuProcess.create_time importClock c2 s pid devIdx body) := by
  intro importClock c1 c2 s pid devIdx e body
  exact ⟨rfl, rfl⟩

/-- C3 counterexample: the type setter rebuilds the field from the assigned
value alone, so applying `'C'` then `'G'` leaves `"G"` while `'G'` then
`'C'` leaves `"C"` — the final classification depends on the order, and
`'C'` followed by `'G'` does not yield the combined marker `"X"`. -/
theorem C3_counterexample :
    GpuProcess.apply_types "" ["C", "G"] = "G" ∧
    GpuProcess.apply_types "" ["G", "C"] = "C" ∧
    (GpuProcess.apply_types "" ["C", "G"]
        == GpuProcess.apply_types "" ["G", "C"]) = false := by
  decide

/-- C3 amended: assignment to the type field is last-write-wins — after any
sequence of assignments the classification is that of the last assigned
value alone, hence assigning the same flag twice equals assigning it once —
and a single assignment whose value contains both `'C'` and `'G'` (in
either character order), or contains `'X'`, yields the combined marker
`"X"`; single flags classify as themselves. -/
theorem C3_set_type_last_write_wins :
    (∀ (initial v : String) (values : List String),
        GpuProcess.apply_types initial (values ++ [v])
          = GpuProcess.set_type v) ∧
    (∀ (initial v : String),
        GpuProcess.apply_types initial [v, v]
          = GpuProcess.apply_types initial [v]) ∧
    (GpuProcess.set_type "CG" = "X") ∧
    (GpuProcess.set_type "GC" = "X") ∧
    (GpuProcess.set_type "X" = "X") ∧
    (GpuProcess.set_type "CX" = "X") ∧
    (GpuProcess.set_type "C" = "C") ∧
    (GpuProcess.set_type "G" = "G") ∧
    (GpuProcess.set_type "" = "") := by
  refine ⟨?_, ?_, by decide, by decide, by decide, by decide, by decide,
    by decide, by decide⟩
  · intro initial v values
    simp [GpuProcess.apply_types, List.foldl_append]
  · intro initial v
    rfl

/-- C5 counterexample: on the POSIX dialect,
`command(["echo", "hello world", ""])` is `echo "hello world"`, not
`echo "hello world" ""` — the NUL-join/strip/split normalization drops the
trailing empty token before quoting. -/
theorem C5_counterexample :
    HostProcess.command ["echo", "hello world", ""]
      = "echo \"hello world\"" ∧
    ("echo \"hello world\"" == "echo \"hello world\" \"\"") = false := by
  decide

/-- C5 amended: `command(["echo", "hello world", ""])` returns
`echo "hello world"` (the space-containing token double-quoted; the empty
trailing token is dropped by the NUL-join/strip/split normalization), and
`command(["ls -la"])` returns `ls -la` verbatim with no added quoting. -/
theorem C5_command_roundtrip :
    HostProcess.command ["echo", "hello world", ""]
      = "echo \"hello world\"" ∧
    HostProcess.command ["ls -la"] = "ls -la" := by
  decide

/-- C6 counterexample: a measured value of 999.95 *does* produce
`"1000.0%"`.  The IEEE-754 double CPython stores for the literal `999.95`
is exactly `8795653217556890 / 2^43`, which is below 1000 (so the
one-decimal band applies) and strictly above the midpoint 999.95, so
`'{:.1f}'` rounds it up to `1000.0`; the exact decimal 999.95 is a tie and
rounds to even, giving `1000.0` as well. -/
theorem C6_counterexample :
    cpu_percent_string (8795653217556890 / 8796093022208) = "1000.0%" ∧
    cpu_percent_string (19999 / 20) = "1000.0%" := by
  constructor
  · have h1 : (8795653217556890 / 8796093022208 : ℚ) < 1000 := by norm_num
    have h2 : roundHalfEven (10 * (8795653217556890 / 8796093022208 : ℚ))
        = 10000 := by
      norm_num [roundHalfEven]
    simp only [cpu_percent_string, h1, if_true, format1f, h2]
    decide
  · have h1 : (19999 / 20 : ℚ) < 1000 := by norm_num
    have h2 : roundHalfEven (10 * (19999 / 20 : ℚ)) = 10000 := by
      norm_num [roundHalfEven]
    simp only [cpu_percent_string, h1, if_true, format1f, h2]
    decide

/-- C6 amended: the CPU-percent display has exactly three bands — below
1000 the value is rendered with one decimal place and `%` (so 0.0 gives
`"0.0%"`, and a measured 999.95, being rounded to one decimal, gives
`"1000.0%"`); from 1000 up to but not including 10000 the truncated integer
with `%` (1000.0 gives `"1000%"`, 9999.9 gives `"9999%"`); at or above
10000 the literal `"9999+%"`. -/
theorem C6_cpu_percent_banding :
    (cpu_percent_string 0 = "0.0%") ∧
    (cpu_percent_string (8795653217556890 / 8796093022208) = "1000.0%") ∧
    (cpu_percent_string 1000 = "1000%") ∧
    (cpu_percent_string (99999 / 10) = "9999%") ∧
    (cpu_percent_string 10000 = "9999+%") ∧
    (∀ q : ℚ, q < 1000 → cpu_percent_string q = format1f q ++ "%") ∧
    (∀ q : ℚ, 1000 ≤ q → q < 10000 →
      cpu_percent_string q = toString (pyInt q) ++ "%") ∧
    (∀ q : ℚ, 10000 ≤ q → cpu_percent_string q = "9999+%") := by
  refine ⟨?_, ?_, ?_, ?_, ?_, ?_, ?_, ?_⟩
  · have h1 : (0 : ℚ) < 1000 := by norm_num
    have h2 : roundHalfEven (10 * (0 : ℚ)) = 0 := by norm_num [roundHalfEven]
    simp only [cpu_percent_string, h1, if_true, format1f, h2]
    decide
  · have h1 : (8795653217556890 / 8796093022208 : ℚ) < 1000 := by norm_num
    have h2 : roundHalfEven (10 * (8795653217556890 / 8796093022208 : ℚ))
        = 10000 := by
      norm_num [roundHalfEven]
    simp only [cpu_percent_string, h1, if_true, format1f, h2]
    decide
  · have h1 : ¬ ((1000 : ℚ) < 1000) := by norm_num
    have h2 : (1000 : ℚ) < 10000 := by norm_num
    have h3 : pyInt (1000 : ℚ) = 1000 := by norm_num [pyInt]
    simp only [cpu_percent_string, h1, h2, h3, if_true, if_false]
    decide
  · have h1 : ¬ ((99999 / 10 : ℚ) < 1000) := by norm_num
    have h2 : (99999 / 10 : ℚ) < 10000 := by norm_num
    have h3 : pyInt (99999 / 10 : ℚ) = 9999 := by norm_num [pyInt]
    simp only [cpu_percent_string, h1, h2, h3, if_true, if_false]
    decide
  · norm_num [cpu_percent_string]
  · intro q h
    simp only [cpu_percent_string, h, if_true]
  · intro q h1 h2
    have h1' : ¬ (q < 1000) := by linarith
    simp only [cpu_percent_string, h1', h2, if_true, if_false]
  · intro q h
    have h1 : ¬ (q < 1000) := by linarith
    have h2 : ¬ (q < 10000) := by linarith
    simp only [cpu_percent_string, h1, h2, if_false]

/-- C7 counterexample: the string `a"b` contains a double quote and no
single quote, yet `add_quotes` returns it as-is (it reaches the early
no-`$`-no-backslash-no-space return), not wrapped in single quotes as the
claim's table prescribes. -/
theorem C7_counterexample :
    add_quotes "a\"b" = "a\"b" ∧
    ("a\"b" == "'a\"b'") = false := by
  decide

/-- C7 amended: the POSIX `add_quotes` table as implemented — the empty
string maps to `""`; a string without `$`, backslash or space is returned
as-is *even when it contains a double quote*; with `$` and backslash absent
but a space present it is wrapped in double quotes when it has no double
quote; a string that contains `$` or a backslash anywhere, or both a space
and a double quote, is wrapped in single quotes verbatim when it has no
single quote, and otherwise has backslash, double quote and dollar escaped
and is wrapped in double quotes. -/
theorem C7_add_quotes_table :
    (add_quotes "" = "\"\"") ∧
    (∀ s : String, s ≠ "" → pyContains s '$' = false →
      pyContains s '\\' = false → pyContains s ' ' = false →
      add_quotes s = s) ∧
    (∀ s : String, pyContains s '$' = false → pyContains s '\\' = false →
      pyContains s ' ' = true → pyContains s dquoteChar = false →
      add_quotes s = "\"" ++ s ++ "\"") ∧
    (∀ s : String,
      (pyContains s '$' = true ∨ pyContains s '\\' = true ∨
        (pyContains s ' ' = true ∧ pyContains s dquoteChar = true)) →
      pyContains s squoteChar = false →
      add_quotes s = String.mk [squoteChar] ++ s ++ String.mk [squoteChar]) ∧
    (∀ s : String,
      (pyContains s '$' = true ∨ pyContains s '\\' = true ∨
        (pyContains s ' ' = true ∧ pyContains s dquoteChar = true)) →
      pyContains s squoteChar = true →
      add_quotes s = "\"" ++ posixEscape s ++ "\"") := by
  refine ⟨by decide, ?_, ?_, ?_, ?_⟩
  · intro s hne hd hb hsp
    simp [add_quotes, hne, hd, hb, hsp]
  · intro s hd hb hsp hq
    have hne : s ≠ "" := by
      intro hemp
      rw [hemp] at hsp
      exact absurd hsp (by decide)
    simp [add_quotes, hne, hd, hb, hsp, hq]
  · intro s hcase hsq
    have hne : s ≠ "" := by
      intro hemp
      rw [hemp] at hcase
      rcases hcase with h | h | ⟨h, _⟩ <;> exact absurd h (by decide)
    rcases hcase with h | h | ⟨h1, h2⟩
    · simp [add_quotes, hne, h, hsq]
    · simp [add_quotes, hne, h, hsq]
    · simp [add_quotes, hne, h1, h2, hsq]
  · intro s hcase hsq
    have hne : s ≠ "" := by
      intro hemp
      rw [hemp] at hcase
      rcases hcase with h | h | ⟨h, _⟩ <;> exact absurd h (by decide)
    rcases hcase with h | h | ⟨h1, h2⟩
    · simp [add_quotes, hne, h, hsq]
    · simp [add_quotes, hne, h, hsq]
    · simp [add_quotes, hne, h1, h2, hsq]

/-- C4 counterexample: with `GpuProcess.CLI_MODE` at its default `False`
the host snapshot derived by the first `as_snapshot()` is never stored in
`HOST_SNAPSHOTS`, so the second call for the same pid (from the handle on
the other device) in the same tick — no `clear_host_snapshots()` in
between — performs a second host-data gather: two calls make two gathers,
not exactly one. -/
theorem C4_counterexample :
    (GpuProcess.as_snapshot td2hNA
        (GpuProcess.as_snapshot td2hNA twoHandleState 1 0
          (Except.ok sampleRaw)).snd
        1 1 (Except.ok sampleRaw)).snd.gatherCount = 2 := by
  rfl

/-- C4 amended: in CLI mode (the caller-declared persistent-cache mode, the
only mode in which `as_snapshot` populates the per-tick cache), two
`as_snapshot()` calls for the same pid on two different devices within one
tick perform exactly one host-data gather — the second call reuses the host
snapshot cached under that pid and returns the same host data — and after
`clear_host_snapshots()` the next call performs a fresh gather. -/
theorem C4_snapshot_cache_amortization
    (td2h : ℚ → String) (s : PState) (pid devIdx1 devIdx2 : Nat)
    (raw raw2 : HostRaw)
    (hcli : s.cliMode = true)
    (hmiss : tblLookup s.hostSnapshots pid = none) :
    ((GpuProcess.as_snapshot td2h s pid devIdx1
        (Except.ok raw)).snd.gatherCount = s.gatherCount + 1) ∧
    ((GpuProcess.as_snapshot td2h
        (GpuProcess.as_snapshot td2h s pid devIdx1 (Except.ok raw)).snd
        pid devIdx2 (Except.ok raw2)).snd.gatherCount
      = s.gatherCount + 1) ∧
    ((GpuProcess.as_snapshot td2h
        (GpuProcess.as_snapshot td2h s pid devIdx1 (Except.ok raw)).snd
        pid devIdx2 (Except.ok raw2)).fst
      = (GpuProcess.as_snapshot td2h s pid devIdx1 (Except.ok raw)).fst) ∧
    (∀ (t : PState) (devIdx3 : Nat) (raw3 : HostRaw),
        (GpuProcess.as_snapshot td2h (GpuProcess.clear_host_snapshots t)
            pid devIdx3 (Except.ok raw3)).snd.gatherCount
          = t.gatherCount + 1) := by
  refine ⟨?_, ?_, ?_, ?_⟩
  · simp [GpuProcess.as_snapshot, GpuProcess.as_snapshot_host, hmiss]
  · simp [GpuProcess.as_snapshot, GpuProcess.as_snapshot_host, hmiss, hcli,
      tblLookup_insert_self]
  · simp [GpuProcess.as_snapshot, GpuProcess.as_snapshot_host, hmiss, hcli,
      tblLookup_insert_self]
  · intro t devIdx3 raw3
    simp [GpuProcess.as_snapshot, GpuProcess.as_snapshot_host,
      GpuProcess.clear_host_snapshots, tblLookup]

/-- C4 witness: the amended theorem at the concrete CLI-mode configuration
with two handles for pid 1. -/
theorem C4_witness :
    ((GpuProcess.as_snapshot td2hNA twoHandleStateCli 1 0
        (Except.ok sampleRaw)).snd.gatherCount
      = twoHandleStateCli.gatherCount + 1) ∧
    ((GpuProcess.as_snapshot td2hNA
        (GpuProcess.as_snapshot td2hNA twoHandleStateCli 1 0
          (Except.ok sampleRaw)).snd
        1 1 (Except.ok sampleRaw)).snd.gatherCount
      = twoHandleStateCli.gatherCount + 1) ∧
    ((GpuProcess.as_snapshot td2hNA
        (GpuProcess.as_snapshot td2hNA twoHandleStateCli 1 0
          (Except.ok sampleRaw)).snd
        1 1 (Except.ok sampleRaw)).fst
      = (GpuProcess.as_snapshot td2hNA twoHandleStateCli 1 0
          (Except.ok sampleRaw)).fst) ∧
    (∀ (t : PState) (devIdx3 : Nat) (raw3 : HostRaw),
        (GpuProcess.as_snapshot td2hNA (GpuProcess.clear_host_snapshots t)
            1 devIdx3 (Except.ok raw3)).snd.gatherCount
          = t.gatherCount + 1) :=
  C4_snapshot_cache_amortization td2hNA twoHandleStateCli 1 0 1
    sampleRaw sampleRaw rfl rfl

end Nvitop
